import Mathlib

/-!
Verification of the cross-frame communication core of the teams-js library.

Source files under verification:
  packages/teams-js/src/public/search.ts  (the search facade module)
  apps/teams-js-test-app/src/App.tsx      (the test-app bootstrap)

The internal modules these files import (internal/communication,
internal/handlers, public/runtime, public/app) are not part of the source
under verification; they are modelled from the specification, as flagged on
each definition below.

Handlers are represented by an abstract identity type H: the model records
which handler is invoked with which arguments, never what the handler does.
-/

/-- A JSON-like value as carried on the wire and stored in the capability
matrix; mirrors the JavaScript value universe the source manipulates. -/
inductive JVal : Type
  | nullV : JVal
  | boolV : Bool → JVal
  | numV : Nat → JVal
  | strV : String → JVal
  | objV : List (String × JVal) → JVal
  | arrV : List JVal → JVal

/-- JavaScript truthiness of a value: null, false, 0 and the empty string are
falsy; every object and array (even empty ones) is truthy. -/
def jsTruthy : JVal → Bool
  | .nullV => false
  | .boolV b => b
  | .numV n => n != 0
  | .strV s => s != ""
  | .objV _ => true
  | .arrV _ => true

/-- JavaScript truthiness of a possibly-undefined value: undefined is falsy. -/
def jsTruthyOpt : Option JVal → Bool
  | none => false
  | some v => jsTruthy v

/-- The error taxonomy of the specification (section 7). -/
inductive CoreError : Type
  | timeoutE : CoreError
  | notReadyE : CoreError
  | protocolE : CoreError
deriving DecidableEq

/-- The settled outcome of a pending call: resolved with the response
arguments, or rejected with an error. -/
inductive ChanOutcome : Type
  | resolvedO : List JVal → ChanOutcome
  | rejectedO : CoreError → ChanOutcome

/-- An outbound wire message: correlation id (present for calls, absent for
fire-and-forget posts), function name, arguments. -/
structure OutMessage : Type where
  mid : Option Nat
  func : String
  args : List JVal

/-- Handshake lifecycle states (specification section 3). -/
inductive HandshakeState : Type
  | uninit : HandshakeState
  | initing : HandshakeState
  | ready : HandshakeState
  | failed : HandshakeState
deriving DecidableEq

/-- The handler registry: a map from event name to the single active
callback identity for that name. -/
def HandlerMap (H : Type) : Type := List (String × H)

/-- Modelled from the spec: internal/handlers.ts is not in the source under
verification. registerHandler overwrites any existing entry for the name
(last-register-wins), never queues, and raises no error on re-registration. -/
def registerHandler {H : Type} (name : String) (h : H) (m : HandlerMap H) : HandlerMap H :=
  (name, h) :: m.filter (fun p => p.1 != name)

/-- Modelled from the spec: internal/handlers.ts is not in the source under
verification. removeHandler on an unknown name is a no-op, not an error. -/
def removeHandler {H : Type} (name : String) (m : HandlerMap H) : HandlerMap H :=
  m.filter (fun p => p.1 != name)

/-- Modelled from the spec: the inbound event dispatch point of
internal/handlers.ts is not in the source under verification. Dispatch on a
registered name invokes the single registered handler once with the event
arguments; dispatch on an unknown name is a no-op (at-most-once, no-replay). -/
def dispatchEvent {H : Type} (m : HandlerMap H) (name : String) (args : List JVal) :
    List (H × List JVal) :=
  match m.lookup name with
  | some h => [(h, args)]
  | none => []

/-- The full core state: handshake manager, message channel bookkeeping,
capability matrix, handler registry, outbound wire log and the log of handler
invocations performed by inbound dispatch. -/
structure CoreState (H : Type) : Type where
  hstate : HandshakeState
  matrix : Option (List (String × JVal))
  nextId : Nat
  initId : Option Nat
  pending : List (Nat × Option Nat)
  settled : List (Nat × ChanOutcome)
  handlers : HandlerMap H
  outbound : List OutMessage
  invocations : List (H × List JVal)

/-- The state at process start: uninitialized, empty matrix, no pending
calls, no handlers, nothing sent. -/
def initState {H : Type} : CoreState H :=
  { hstate := .uninit
    matrix := none
    nextId := 0
    initId := none
    pending := []
    settled := []
    handlers := []
    outbound := []
    invocations := [] }

/-- Modelled from the spec: public/app.ts `app.initialize` is not in the
source under verification. From `uninit` it transitions to `initing`, issues
the init call through the message channel with a fresh correlation id, and
records that id so the response can be recognised; otherwise it is a no-op. -/
def startInit {H : Type} (st : CoreState H) : CoreState H :=
  if st.hstate = .uninit then
    { st with
      hstate := .initing
      initId := some st.nextId
      nextId := st.nextId + 1
      pending := (st.nextId, none) :: st.pending
      outbound := st.outbound ++ [{ mid := some st.nextId, func := "initialize", args := [] }] }
  else st

/-- Modelled from the spec: the `call` entry point of
internal/communication.ts is not in the source under verification. A call is
sent only when `ready`; it allocates a fresh correlation id, stores a pending
entry with the optional deadline, and serializes the message to the host. -/
def callHost {H : Type} (name : String) (args : List JVal) (deadline : Option Nat)
    (st : CoreState H) : CoreState H :=
  if st.hstate = .ready then
    { st with
      nextId := st.nextId + 1
      pending := (st.nextId, deadline) :: st.pending
      outbound := st.outbound ++ [{ mid := some st.nextId, func := name, args := args }] }
  else st

/-- Modelled from the spec: the fire-and-forget send path of
internal/communication.ts (`sendMessageToParent` with no callback) is not in
the source under verification. A post serializes the message with no
correlation id and stores no pending entry: no future is created. -/
def postToHost {H : Type} (name : String) (args : List JVal) (st : CoreState H) : CoreState H :=
  { st with outbound := st.outbound ++ [{ mid := none, func := name, args := args }] }

/-- Modelled from the spec: the response branch of `dispatchIncoming` in
internal/communication.ts is not in the source under verification. A response
whose id matches a pending call removes that entry and settles it resolved;
recognising the init call's response additionally populates the capability
matrix and moves the handshake to `ready` (or to `failed` on a malformed
payload). A response with an unknown id is dropped with no effect. -/
def dispatchResponse {H : Type} (id : Nat) (args : List JVal) (st : CoreState H) : CoreState H :=
  if (st.pending.lookup id).isSome then
    let st1 : CoreState H :=
      { st with
        pending := st.pending.filter (fun p => p.1 != id)
        settled := (id, .resolvedO args) :: st.settled }
    if st.initId = some id ∧ st.hstate = .initing then
      match args with
      | [JVal.nullV, JVal.objV m] => { st1 with hstate := .ready, matrix := some m }
      | _ => { st1 with hstate := .failed }
    else st1
  else st

/-- Whether a pending entry has an expired deadline at the given time. -/
def isExpired (now : Nat) (p : Nat × Option Nat) : Bool :=
  match p.2 with
  | some d => decide (d < now)
  | none => false

/-- Modelled from the spec: the timeout path of internal/communication.ts is
not in the source under verification. Every pending call whose deadline has
passed is removed and its future rejected with the timeout error. -/
def checkTimeouts {H : Type} (now : Nat) (st : CoreState H) : CoreState H :=
  { st with
    pending := st.pending.filter (fun p => !(isExpired now p))
    settled := (st.pending.filter (isExpired now)).map
      (fun p => (p.1, ChanOutcome.rejectedO .timeoutE)) ++ st.settled }

/-- Modelled from the spec: the event branch of `dispatchIncoming` in
internal/communication.ts is not in the source under verification. An inbound
message with no correlating pending id is forwarded by name to the handler
registry, and the resulting handler invocation (if any) is logged. -/
def dispatchInbound {H : Type} (name : String) (args : List JVal) (st : CoreState H) : CoreState H :=
  { st with invocations := st.invocations ++ dispatchEvent st.handlers name args }

/-- Modelled from the spec: public/app.ts `app.notifyAppLoaded` is not in
the source under verification. Before `ready` it fails with the not-ready
error; once `ready` it is a one-way fire-and-forget post. -/
def notifyAppLoaded {H : Type} (st : CoreState H) : Except CoreError (CoreState H) :=
  if st.hstate = .ready then .ok (postToHost "appInitialization.appLoaded" [] st)
  else .error .notReadyE

/-- Modelled from the spec: public/app.ts `app.notifySuccess` is not in the
source under verification; same gating as `notifyAppLoaded`. -/
def notifySuccess {H : Type} (st : CoreState H) : Except CoreError (CoreState H) :=
  if st.hstate = .ready then .ok (postToHost "appInitialization.success" [] st)
  else .error .notReadyE

/-- Modelled from the spec: the capability lookup `runtime.supports.<area>`
(public/runtime.ts is not in the source under verification). Before the
handshake populates the matrix the lookup yields undefined; afterwards it
yields the host-reported entry for the area, absence meaning undefined. -/
def supportsLookup {H : Type} (st : CoreState H) (area : String) : Option JVal :=
  match st.matrix with
  | none => none
  | some m => m.lookup area

/-- Modelled from the spec: the capability registry contract
`supports(area) -> bool` (specification section 4.4): the truthiness of the
host-reported entry, conservatively false when absent or unpopulated. -/
def supports {H : Type} (st : CoreState H) (area : String) : Bool :=
  jsTruthyOpt (supportsLookup st area)

namespace search

/-- From search.ts `registerHandlers`: registers the change and closed
handlers; the execute handler is registered only when provided. -/
def registerHandlers {H : Type} (onChangeHandler : H) (onClosedHandler : H)
    (onExecuteHandler : Option H) (st : CoreState H) : CoreState H :=
  let m1 := registerHandler "searchQueryChange" onChangeHandler st.handlers
  let m2 := registerHandler "searchQueryClosed" onClosedHandler m1
  let m3 := match onExecuteHandler with
    | some h => registerHandler "searchQueryExecute" h m2
    | none => m2
  { st with handlers := m3 }

/-- From search.ts `unregisterHandlers`: unconditionally sends the
`search.unregister` message to the host, then removes the three search
event handlers. -/
def unregisterHandlers {H : Type} (st : CoreState H) : CoreState H :=
  let st1 := postToHost "search.unregister" [] st
  let m1 := removeHandler "searchQueryChange" st1.handlers
  let m2 := removeHandler "searchQueryClosed" m1
  let m3 := removeHandler "searchQueryExecute" m2
  { st1 with handlers := m3 }

/-- From search.ts `isSupported`: the ternary `runtime.supports.search ?
true : false` on the runtime capability entry for the search area. -/
def isSupported {H : Type} (st : CoreState H) : Bool :=
  if jsTruthyOpt (supportsLookup st "search") then true else false

end search

/-- URL query parameters of the test app, as a key-value list. -/
structure UrlParams : Type where
  params : List (String × String)

/-- Whether the query string has the key (`urlParams.has`). -/
def hasParam (u : UrlParams) (k : String) : Bool :=
  (u.params.lookup k).isSome

/-- The value for the key, if present (`urlParams.get`). -/
def getParam (u : UrlParams) (k : String) : Option String :=
  u.params.lookup k

/-- JavaScript truthiness of `urlParams.get`: null and the empty string are
falsy, every other string is truthy. -/
def jsTruthyStrOpt : Option String → Bool
  | none => false
  | some s => s != ""

/-- From App.tsx lines 31-36: the guard around the automatic handshake.
The init call fires at process start unless the `customInit` query parameter
is present with a truthy value. -/
def autoInitCond (u : UrlParams) : Bool :=
  !(hasParam u "customInit") || !(jsTruthyStrOpt (getParam u "customInit"))

/-- From App.tsx: the bootstrap either issues the handshake at process start
or, under custom initialization, leaves the state untouched until an
explicit external trigger later calls the same init entry point. -/
def appStartup {H : Type} (u : UrlParams) (st : CoreState H) : CoreState H :=
  if autoInitCond u then startInit st else st

/-- The events that drive the core: public-API calls and inbound messages. -/
inductive Ev (H : Type) : Type
  | initEv : Ev H
  | respEv : Nat → List JVal → Ev H
  | inEv : String → List JVal → Ev H
  | callEv : String → List JVal → Option Nat → Ev H
  | tickEv : Nat → Ev H
  | regEv : H → H → Option H → Ev H
  | unregEv : Ev H
  | loadedEv : Ev H
  | successEv : Ev H

/-- One step of the core: apply the event to the state. Lifecycle calls that
fail with the not-ready error leave the state unchanged. -/
def stepEv {H : Type} (e : Ev H) (st : CoreState H) : CoreState H :=
  match e with
  | .initEv => startInit st
  | .respEv id args => dispatchResponse id args st
  | .inEv name args => dispatchInbound name args st
  | .callEv name args deadline => callHost name args deadline st
  | .tickEv now => checkTimeouts now st
  | .regEv c k x => search.registerHandlers c k x st
  | .unregEv => search.unregisterHandlers st
  | .loadedEv => match notifyAppLoaded st with | .ok s => s | .error _ => st
  | .successEv => match notifySuccess st with | .ok s => s | .error _ => st

/-- Run a list of events from the process-start state. -/
def runEvents {H : Type} (evs : List (Ev H)) : CoreState H :=
  evs.foldl (fun st e => stepEv e st) initState

section AssocLemmas

variable {α β : Type} [BEq α] [LawfulBEq α]

/-- After filtering out every pair with the given key, lookup of that key
fails. -/
theorem lookup_filter_ne_self (a : α) (l : List (α × β)) :
    (l.filter (fun p => p.1 != a)).lookup a = none := by
  simp
  exact fun x y _ hxa hax => hxa hax.symm

/-- Filtering out pairs with one key leaves lookups of any other key
unchanged. -/
theorem lookup_filter_ne_other {a b : α} (h : b ≠ a) (l : List (α × β)) :
    (l.filter (fun p => p.1 != a)).lookup b = l.lookup b := by
  induction l with
  | nil => rfl
  | cons p t ih =>
    obtain ⟨k, v⟩ := p
    by_cases hka : k = a
    · have hc : (k != a) = false := by simp [hka]
      have hbk : ((b == k) = false) := by simp [hka, h]
      simp [List.filter_cons, hc, List.lookup, hbk, ih]
    · have hc : (k != a) = true := by simp [hka]
      simp [List.filter_cons, hc, List.lookup, ih]

/-- Filtering out pairs with a key that does not occur is a no-op. -/
theorem filter_ne_of_lookup_none {a : α} {l : List (α × β)}
    (h : l.lookup a = none) : l.filter (fun p => p.1 != a) = l := by
  induction l with
  | nil => rfl
  | cons p t ih =>
    obtain ⟨k, v⟩ := p
    by_cases hak : a = k
    · subst hak
      simp [List.lookup] at h
    · have hka : ¬k = a := fun hh => hak hh.symm
      have hc : (k != a) = true := by simp [hka]
      have hbk : ((a == k) = false) := by simp [hak]
      simp only [List.lookup, hbk] at h
      simp [List.filter_cons, hc, ih h]

/-- A key absent from the key list looks up to nothing. -/
theorem lookup_none_of_not_mem_keys {a : α} {l : List (α × β)}
    (h : a ∉ l.map Prod.fst) : l.lookup a = none := by
  induction l with
  | nil => rfl
  | cons p t ih =>
    obtain ⟨k, v⟩ := p
    simp only [List.map_cons, List.mem_cons, not_or] at h
    have hak : ((a == k) = false) := by simp [h.1]
    simp only [List.lookup, hak]
    exact ih h.2

/-- Filtering never makes an absent key present. -/
theorem lookup_filter_none {q : α × β → Bool} {a : α} {l : List (α × β)}
    (h : l.lookup a = none) : (l.filter q).lookup a = none := by
  induction l with
  | nil => rfl
  | cons p t ih =>
    obtain ⟨k, v⟩ := p
    by_cases hak : a = k
    · subst hak
      simp [List.lookup] at h
    · have hbk : ((a == k) = false) := by simp [hak]
      simp only [List.lookup, hbk] at h
      by_cases hq : q (k, v) = true
      · simp [List.filter_cons, hq, List.lookup, hbk, ih h]
      · simp only [Bool.not_eq_true] at hq
        simp [List.filter_cons, hq, ih h]

/-- With distinct keys, an entry the filter rejects disappears from lookup. -/
theorem lookup_filter_false {q : α × β → Bool} {a : α} {v : β} {l : List (α × β)}
    (hnd : (l.map Prod.fst).Nodup) (h : l.lookup a = some v) (hq : q (a, v) = false) :
    (l.filter q).lookup a = none := by
  induction l with
  | nil => simp [List.lookup] at h
  | cons p t ih =>
    obtain ⟨k, w⟩ := p
    simp only [List.map_cons, List.nodup_cons] at hnd
    by_cases hak : a = k
    · subst hak
      simp only [List.lookup, beq_self_eq_true] at h
      have hw : w = v := by injection h
      subst hw
      rw [List.filter_cons, if_neg (by simp [hq])]
      exact lookup_filter_none (lookup_none_of_not_mem_keys hnd.1)
    · have hbk : ((a == k) = false) := by simp [hak]
      simp only [List.lookup, hbk] at h
      by_cases hkq : q (k, w) = true
      · simp [List.filter_cons, hkq, List.lookup, hbk, ih hnd.2 h]
      · simp only [Bool.not_eq_true] at hkq
        simp [List.filter_cons, hkq, ih hnd.2 h]

/-- An entry the filter accepts survives as the lookup result. -/
theorem lookup_filter_true {q : α × β → Bool} {a : α} {v : β} {l : List (α × β)}
    (h : l.lookup a = some v) (hq : q (a, v) = true) :
    (l.filter q).lookup a = some v := by
  induction l with
  | nil => simp [List.lookup] at h
  | cons p t ih =>
    obtain ⟨k, w⟩ := p
    by_cases hak : a = k
    · subst hak
      simp only [List.lookup, beq_self_eq_true] at h
      have hw : w = v := by injection h
      subst hw
      simp [List.filter_cons, hq, List.lookup]
    · have hbk : ((a == k) = false) := by simp [hak]
      simp only [List.lookup, hbk] at h
      by_cases hkq : q (k, w) = true
      · simp [List.filter_cons, hkq, List.lookup, hbk, ih h]
      · simp only [Bool.not_eq_true] at hkq
        simp [List.filter_cons, hkq, ih h]

/-- Rewriting every value to a constant maps a present key to that constant. -/
theorem lookup_map_const {γ : Type} {c : γ} {a : α} {l : List (α × β)}
    (h : (l.lookup a).isSome) : (l.map (fun p => (p.1, c))).lookup a = some c := by
  induction l with
  | nil => simp [List.lookup] at h
  | cons p t ih =>
    obtain ⟨k, w⟩ := p
    by_cases hak : a = k
    · subst hak
      simp [List.map_cons, List.lookup]
    · have hbk : ((a == k) = false) := by simp [hak]
      simp only [List.lookup, hbk] at h
      simp only [List.map_cons, List.lookup, hbk]
      exact ih h

/-- A key found on the left of an append is found in the append. -/
theorem lookup_append_some {l1 l2 : List (α × β)} {a : α} {v : β}
    (h : l1.lookup a = some v) : (l1 ++ l2).lookup a = some v := by
  induction l1 with
  | nil => simp [List.lookup] at h
  | cons p t ih =>
    obtain ⟨k, w⟩ := p
    by_cases hak : a = k
    · subst hak
      simp only [List.lookup, beq_self_eq_true] at h
      simp [List.cons_append, List.lookup, h]
    · have hbk : ((a == k) = false) := by simp [hak]
      simp only [List.lookup, hbk] at h
      simp only [List.cons_append, List.lookup, hbk]
      exact ih h

end AssocLemmas

/-- The handler just registered is the one found for its name. -/
theorem registerHandler_lookup_self {H : Type} (name : String) (h : H) (m : HandlerMap H) :
    (registerHandler name h m).lookup name = some h := by
  simp [registerHandler, List.lookup]

/-- Registering one name leaves every other name's lookup unchanged. -/
theorem registerHandler_lookup_other {H : Type} {n name : String} (hne : n ≠ name)
    (h : H) (m : HandlerMap H) : (registerHandler name h m).lookup n = m.lookup n := by
  have hbk : ((n == name) = false) := by simp [hne]
  simp only [registerHandler, List.lookup, hbk]
  exact lookup_filter_ne_other hne m

/-- After removal the name has no handler. -/
theorem removeHandler_lookup_self {H : Type} (name : String) (m : HandlerMap H) :
    (removeHandler name m).lookup name = none :=
  lookup_filter_ne_self name m

/-- Removing one name leaves every other name's lookup unchanged. -/
theorem removeHandler_lookup_other {H : Type} {n name : String} (hne : n ≠ name)
    (m : HandlerMap H) : (removeHandler name m).lookup n = m.lookup n :=
  lookup_filter_ne_other hne m

/-- Removing a name that has no handler leaves the registry untouched. -/
theorem removeHandler_of_absent {H : Type} {name : String} {m : HandlerMap H}
    (h : m.lookup name = none) : removeHandler name m = m :=
  filter_ne_of_lookup_none h

/-- One step never leaves a populated matrix behind in a non-ready state:
the matrix is written only on the transition to `ready`. -/
theorem stepEv_matrix_inv {H : Type} (e : Ev H) (st : CoreState H)
    (h : st.hstate ≠ .ready → st.matrix = none) :
    (stepEv e st).hstate ≠ .ready → (stepEv e st).matrix = none := by
  cases e with
  | initEv =>
    simp only [stepEv, startInit]
    split
    · intro _
      exact h (by simp_all)
    · exact h
  | respEv id args =>
    simp only [stepEv, dispatchResponse]
    split
    · split
      · split
        · simp
        · intro _
          exact h (by simp_all)
      · exact h
    · exact h
  | inEv name args => exact h
  | callEv name args deadline =>
    simp only [stepEv, callHost]
    split
    · exact h
    · exact h
  | tickEv now => exact h
  | regEv c k x => exact h
  | unregEv => exact h
  | loadedEv =>
    simp only [stepEv]
    cases hns : notifyAppLoaded st with
    | ok s =>
      simp only [notifyAppLoaded] at hns
      split at hns
      · cases hns
        exact h
      · cases hns
    | error er => exact h
  | successEv =>
    simp only [stepEv]
    cases hns : notifySuccess st with
    | ok s =>
      simp only [notifySuccess] at hns
      split at hns
      · cases hns
        exact h
      · cases hns
    | error er => exact h

/-- Along every event trace from process start, a non-ready state has an
unpopulated matrix. -/
theorem runEvents_matrix_inv {H : Type} (evs : List (Ev H)) :
    (runEvents evs).hstate ≠ .ready → (runEvents evs).matrix = none := by
  suffices hs : ∀ (st : CoreState H), (st.hstate ≠ .ready → st.matrix = none) →
      ((evs.foldl (fun st e => stepEv e st) st).hstate ≠ .ready →
        (evs.foldl (fun st e => stepEv e st) st).matrix = none) by
    exact hs initState (fun _ => rfl)
  induction evs with
  | nil => exact fun st h => h
  | cons e t ih => exact fun st h => ih (stepEv e st) (stepEv_matrix_inv e st h)

/-- The C2 scenario: the handshake is issued from process start, so the init
call carries correlation id 0. -/
def c2Start : CoreState Nat := startInit initState

/-- The C2 scenario after the host responds to call 0 with a null error and
the capability matrix mapping search to true. -/
def c2Ready : CoreState Nat :=
  dispatchResponse 0 [JVal.nullV, JVal.objV [("search", JVal.boolV true)]] c2Start

/-- The C2 scenario after registering the change handler (identity 0) and the
closed handler (identity 1), with no execute handler. -/
def c2Registered : CoreState Nat := search.registerHandlers 0 1 none c2Ready

/-- The C2 inbound event payload carrying the search term. -/
def c2Query : List JVal := [JVal.objV [("searchTerm", JVal.strV "abc")]]

/-- The C2 scenario after the inbound searchQueryChange event. -/
def c2AfterEvent : CoreState Nat := dispatchInbound "searchQueryChange" c2Query c2Registered

/-- The C2 scenario after unregistering the search handlers. -/
def c2AfterUnreg : CoreState Nat := search.unregisterHandlers c2AfterEvent

/-- The C2 scenario after a repeat of the same inbound event. -/
def c2AfterRepeat : CoreState Nat := dispatchInbound "searchQueryChange" c2Query c2AfterUnreg

/-- C2: after the init response completes the handshake, registering the
change/closed handlers and dispatching the searchQueryChange event invokes
the change handler with the search term exactly once; after
unregisterHandlers, a repeat of the same event invokes no handler. -/
theorem c2_end_to_end_delivery :
    c2Ready.hstate = HandshakeState.ready
    ∧ c2AfterEvent.invocations = [(0, c2Query)]
    ∧ c2AfterUnreg.invocations = [(0, c2Query)]
    ∧ c2AfterRepeat.invocations = c2AfterUnreg.invocations := by
  exact ⟨rfl, rfl, rfl, rfl⟩

/-- C1: before handshake completion (along any event trace whose state is
not ready) every capability lookup is false and search.isSupported is false;
once the matrix holds search mapped to true, supports is true exactly for
the search area and false for mail. -/
theorem c1_supports_conservative_and_exact (evs : List (Ev Nat)) (area : String)
    (st : CoreState Nat)
    (hnr : (runEvents evs).hstate ≠ HandshakeState.ready)
    (hm : st.matrix = some [("search", JVal.boolV true)]) :
    supports (runEvents evs) area = false
    ∧ search.isSupported (runEvents evs) = false
    ∧ supports st "search" = true
    ∧ supports st "mail" = false := by
  have hmat := runEvents_matrix_inv evs hnr
  refine ⟨?_, ?_, ?_, ?_⟩
  · simp [supports, supportsLookup, hmat, jsTruthyOpt]
  · simp [search.isSupported, supportsLookup, hmat, jsTruthyOpt]
  · simp only [supports, supportsLookup, hm]
    rfl
  · simp only [supports, supportsLookup, hm]
    rfl

/-- Witness for C1 at the empty trace and at a concrete populated state. -/
theorem c1_supports_witness :
    (runEvents ([] : List (Ev Nat))).hstate ≠ HandshakeState.ready
    ∧ (supports (runEvents ([] : List (Ev Nat))) "mail" = false
      ∧ search.isSupported (runEvents ([] : List (Ev Nat))) = false
      ∧ supports ({ initState with matrix := some [("search", JVal.boolV true)] } : CoreState Nat) "search" = true
      ∧ supports ({ initState with matrix := some [("search", JVal.boolV true)] } : CoreState Nat) "mail" = false) :=
  ⟨by decide,
    c1_supports_conservative_and_exact [] "mail"
      { initState with matrix := some [("search", JVal.boolV true)] } (by decide) rfl⟩

/-- C4: registering twice under the same name equals registering the second
callback alone; the registry keeps exactly one entry for the name, and only
the second callback fires on the next dispatch of that name. -/
theorem c4_last_register_wins {H : Type} (m : HandlerMap H) (name : String) (f g : H)
    (args : List JVal) :
    registerHandler name g (registerHandler name f m) = registerHandler name g m
    ∧ (registerHandler name g m).countP (fun p => p.1 == name) = 1
    ∧ dispatchEvent (registerHandler name g (registerHandler name f m)) name args
      = [(g, args)] := by
  refine ⟨?_, ?_, ?_⟩
  · have h1 : ((name, f).1 != name) = false := by simp
    simp [registerHandler, List.filter_cons, h1, List.filter_filter]
  · have hz : (m.filter (fun p => p.1 != name)).countP (fun p => p.1 == name) = 0 := by
      rw [List.countP_eq_zero]
      intro a ha
      have := (List.mem_filter.mp ha).2
      simp only [bne_iff_ne, ne_eq] at this
      simp [this]
    simp [registerHandler, List.countP_cons, hz]
  · simp [dispatchEvent, registerHandler_lookup_self]

/-- C5: removing a never-registered name raises nothing and changes nothing:
it is the identity on the registry, leaves every other name's entry alone,
and search.unregisterHandlers may remove searchQueryExecute harmlessly when
no execute handler was registered. -/
theorem c5_remove_absent_noop {H : Type} (m : HandlerMap H) (name n' : String)
    (st : CoreState H) :
    (m.lookup name = none → removeHandler name m = m)
    ∧ (n' ≠ name → (removeHandler name m).lookup n' = m.lookup n')
    ∧ (st.handlers.lookup "searchQueryExecute" = none →
        (search.unregisterHandlers st).handlers =
          removeHandler "searchQueryClosed" (removeHandler "searchQueryChange" st.handlers)) := by
  refine ⟨fun h => removeHandler_of_absent h, fun h => removeHandler_lookup_other h m, ?_⟩
  intro h
  have habs : (removeHandler "searchQueryClosed"
      (removeHandler "searchQueryChange" st.handlers)).lookup "searchQueryExecute" = none := by
    rw [removeHandler_lookup_other (by decide), removeHandler_lookup_other (by decide)]
    exact h
  simp [search.unregisterHandlers, postToHost, removeHandler_of_absent habs]

/-- Witness for C5 on a one-entry registry and a state carrying it. -/
theorem c5_remove_absent_witness :
    ([(("searchQueryChange", 7) : String × Nat)].lookup "zzz" = none
      ∧ removeHandler "zzz" [(("searchQueryChange", 7) : String × Nat)]
        = [(("searchQueryChange", 7) : String × Nat)])
    ∧ (("searchQueryChange" : String) ≠ "zzz"
      ∧ (removeHandler "zzz" [(("searchQueryChange", 7) : String × Nat)]).lookup "searchQueryChange"
        = [(("searchQueryChange", 7) : String × Nat)].lookup "searchQueryChange")
    ∧ (({ initState with handlers := [("searchQueryChange", 7)] } : CoreState Nat).handlers.lookup "searchQueryExecute" = none
      ∧ (search.unregisterHandlers ({ initState with handlers := [("searchQueryChange", 7)] } : CoreState Nat)).handlers
        = removeHandler "searchQueryClosed"
            (removeHandler "searchQueryChange"
              (({ initState with handlers := [("searchQueryChange", 7)] } : CoreState Nat).handlers))) :=
  ⟨⟨rfl, (c5_remove_absent_noop [("searchQueryChange", 7)] "zzz" "searchQueryChange" initState).1 rfl⟩,
   ⟨by decide, (c5_remove_absent_noop [("searchQueryChange", 7)] "zzz" "searchQueryChange" initState).2.1 (by decide)⟩,
   ⟨rfl, (c5_remove_absent_noop [("searchQueryChange", 7)] "zzz" "searchQueryChange"
      { initState with handlers := [("searchQueryChange", 7)] }).2.2 rfl⟩⟩

/-- C8: registerHandlers with the execute handler omitted overwrites only the
change and closed slots: the searchQueryExecute entry (and every other
name's entry) is exactly what it was before. -/
theorem c8_execute_slot_preserved {H : Type} (st : CoreState H) (c k : H) (n : String)
    (hn1 : n ≠ "searchQueryChange") (hn2 : n ≠ "searchQueryClosed") :
    (search.registerHandlers c k none st).handlers.lookup "searchQueryExecute"
      = st.handlers.lookup "searchQueryExecute"
    ∧ (search.registerHandlers c k none st).handlers.lookup "searchQueryChange" = some c
    ∧ (search.registerHandlers c k none st).handlers.lookup "searchQueryClosed" = some k
    ∧ (search.registerHandlers c k none st).handlers.lookup n = st.handlers.lookup n := by
  simp only [search.registerHandlers]
  refine ⟨?_, ?_, ?_, ?_⟩
  · rw [registerHandler_lookup_other (by decide), registerHandler_lookup_other (by decide)]
  · rw [registerHandler_lookup_other (by decide), registerHandler_lookup_self]
  · rw [registerHandler_lookup_self]
  · rw [registerHandler_lookup_other hn2, registerHandler_lookup_other hn1]

/-- Witness for C8 with concrete handlers, a previously registered execute
handler and an unrelated name. -/
theorem c8_execute_slot_witness :
    (("other" : String) ≠ "searchQueryChange"
      ∧ ("other" : String) ≠ "searchQueryClosed")
    ∧ ((search.registerHandlers 4 5 none
          ({ initState with handlers := [("searchQueryExecute", 9)] } : CoreState Nat)).handlers.lookup "searchQueryExecute"
        = ({ initState with handlers := [("searchQueryExecute", 9)] } : CoreState Nat).handlers.lookup "searchQueryExecute"
      ∧ (search.registerHandlers 4 5 none
          ({ initState with handlers := [("searchQueryExecute", 9)] } : CoreState Nat)).handlers.lookup "searchQueryChange" = some 4
      ∧ (search.registerHandlers 4 5 none
          ({ initState with handlers := [("searchQueryExecute", 9)] } : CoreState Nat)).handlers.lookup "searchQueryClosed" = some 5
      ∧ (search.registerHandlers 4 5 none
          ({ initState with handlers := [("searchQueryExecute", 9)] } : CoreState Nat)).handlers.lookup "other"
        = ({ initState with handlers := [("searchQueryExecute", 9)] } : CoreState Nat).handlers.lookup "other") :=
  ⟨⟨by decide, by decide⟩,
    c8_execute_slot_preserved { initState with handlers := [("searchQueryExecute", 9)] }
      4 5 "other" (by decide) (by decide)⟩

/-- C9: unregisterHandlers always sends exactly one search.unregister
message, afterwards none of the three search event names has a handler, and
a second call leaves the handler registry unchanged. -/
theorem c9_unregister_unconditional {H : Type} (st : CoreState H) :
    (search.unregisterHandlers st).outbound
      = st.outbound ++ [{ mid := none, func := "search.unregister", args := [] }]
    ∧ (search.unregisterHandlers st).handlers.lookup "searchQueryChange" = none
    ∧ (search.unregisterHandlers st).handlers.lookup "searchQueryClosed" = none
    ∧ (search.unregisterHandlers st).handlers.lookup "searchQueryExecute" = none
    ∧ (search.unregisterHandlers (search.unregisterHandlers st)).handlers
      = (search.unregisterHandlers st).handlers := by
  have hch : ∀ (m : HandlerMap H),
      (removeHandler "searchQueryExecute"
        (removeHandler "searchQueryClosed"
          (removeHandler "searchQueryChange" m))).lookup "searchQueryChange" = none := by
    intro m
    rw [removeHandler_lookup_other (by decide), removeHandler_lookup_other (by decide),
      removeHandler_lookup_self]
  have hcl : ∀ (m : HandlerMap H),
      (removeHandler "searchQueryExecute"
        (removeHandler "searchQueryClosed"
          (removeHandler "searchQueryChange" m))).lookup "searchQueryClosed" = none := by
    intro m
    rw [removeHandler_lookup_other (by decide), removeHandler_lookup_self]
  have hex : ∀ (m : HandlerMap H),
      (removeHandler "searchQueryExecute"
        (removeHandler "searchQueryClosed"
          (removeHandler "searchQueryChange" m))).lookup "searchQueryExecute" = none := by
    intro m
    rw [removeHandler_lookup_self]
  refine ⟨by simp [search.unregisterHandlers, postToHost], ?_, ?_, ?_, ?_⟩
  · simp only [search.unregisterHandlers, postToHost]
    exact hch st.handlers
  · simp only [search.unregisterHandlers, postToHost]
    exact hcl st.handlers
  · simp only [search.unregisterHandlers, postToHost]
    exact hex st.handlers
  · simp only [search.unregisterHandlers, postToHost]
    rw [removeHandler_of_absent (hch st.handlers),
      removeHandler_of_absent (hcl st.handlers),
      removeHandler_of_absent (hex st.handlers)]

/-- C3: a call whose deadline has passed without a response is removed from
the pending map and settled rejected with the timeout error; any response
whose id matches no pending call (never issued, already resolved, or
expired — including one arriving after the timeout rejection) is dropped
with no effect on the state, so no call is ever resolved twice. -/
theorem c3_single_shot_dispatch {H : Type} (st : CoreState H) (id d now : Nat)
    (args : List JVal)
    (hnd : (st.pending.map Prod.fst).Nodup)
    (hpend : st.pending.lookup id = some (some d))
    (hexp : d < now) :
    (checkTimeouts now st).pending.lookup id = none
    ∧ (checkTimeouts now st).settled.lookup id
      = some (ChanOutcome.rejectedO CoreError.timeoutE)
    ∧ (∀ (st' : CoreState H) (i : Nat) (rargs : List JVal),
        st'.pending.lookup i = none → dispatchResponse i rargs st' = st')
    ∧ dispatchResponse id args (checkTimeouts now st) = checkTimeouts now st := by
  have hqf : (fun p => !(isExpired now p)) ((id, some d) : Nat × Option Nat) = false := by
    simp [isExpired, hexp]
  have hqt : isExpired now ((id, some d) : Nat × Option Nat) = true := by
    simp [isExpired, hexp]
  have hgone : (checkTimeouts now st).pending.lookup id = none :=
    lookup_filter_false hnd hpend hqf
  have hdrop : ∀ (st' : CoreState H) (i : Nat) (rargs : List JVal),
      st'.pending.lookup i = none → dispatchResponse i rargs st' = st' := by
    intro st' i rargs h
    simp [dispatchResponse, h]
  refine ⟨hgone, ?_, hdrop, hdrop _ id args hgone⟩
  have hin : ((st.pending.filter (isExpired now)).lookup id).isSome := by
    rw [lookup_filter_true hpend hqt]
    rfl
  exact lookup_append_some (lookup_map_const hin)

/-- The pending map used by the C3 witness: one outstanding call with id 5
and deadline 10. -/
def c3St : CoreState Nat := { initState with pending := [(5, some 10)] }

/-- Witness for C3 at time 11 against the id-5 call with deadline 10. -/
theorem c3_single_shot_witness :
    (c3St.pending.map Prod.fst).Nodup
    ∧ c3St.pending.lookup 5 = some (some 10)
    ∧ 10 < 11
    ∧ ((checkTimeouts 11 c3St).pending.lookup 5 = none
      ∧ (checkTimeouts 11 c3St).settled.lookup 5
        = some (ChanOutcome.rejectedO CoreError.timeoutE)
      ∧ dispatchResponse 5 [] (checkTimeouts 11 c3St) = checkTimeouts 11 c3St) :=
  ⟨by decide, rfl, by decide,
    ⟨(c3_single_shot_dispatch c3St 5 10 11 [] (by decide) rfl (by decide)).1,
     (c3_single_shot_dispatch c3St 5 10 11 [] (by decide) rfl (by decide)).2.1,
     (c3_single_shot_dispatch c3St 5 10 11 [] (by decide) rfl (by decide)).2.2.2⟩⟩

/-- C6: notifyAppLoaded and notifySuccess fail with the not-ready error in
every non-ready state; in the ready state each succeeds as a fire-and-forget
post, appending one id-less message and creating no pending call. -/
theorem c6_notify_gated {H : Type} (st : CoreState H) :
    (st.hstate ≠ HandshakeState.ready →
      notifyAppLoaded st = Except.error CoreError.notReadyE
      ∧ notifySuccess st = Except.error CoreError.notReadyE)
    ∧ (st.hstate = HandshakeState.ready →
      notifyAppLoaded st = Except.ok (postToHost "appInitialization.appLoaded" [] st)
      ∧ notifySuccess st = Except.ok (postToHost "appInitialization.success" [] st)
      ∧ (postToHost "appInitialization.appLoaded" [] st).pending = st.pending
      ∧ (postToHost "appInitialization.appLoaded" [] st).outbound
        = st.outbound ++ [{ mid := none, func := "appInitialization.appLoaded", args := [] }]) := by
  constructor
  · intro h
    exact ⟨by simp [notifyAppLoaded, h], by simp [notifySuccess, h]⟩
  · intro h
    exact ⟨by simp [notifyAppLoaded, h], by simp [notifySuccess, h], rfl, rfl⟩

/-- Witness for C6 in the uninitialized state and in a ready state. -/
theorem c6_notify_witness :
    ((initState : CoreState Nat).hstate ≠ HandshakeState.ready
      ∧ notifyAppLoaded (initState : CoreState Nat) = Except.error CoreError.notReadyE)
    ∧ (({ initState with hstate := .ready } : CoreState Nat).hstate = HandshakeState.ready
      ∧ notifyAppLoaded ({ initState with hstate := .ready } : CoreState Nat)
        = Except.ok (postToHost "appInitialization.appLoaded" []
            ({ initState with hstate := .ready } : CoreState Nat))) :=
  ⟨⟨by decide, ((c6_notify_gated (initState : CoreState Nat)).1 (by decide)).1⟩,
   ⟨rfl, ((c6_notify_gated ({ initState with hstate := .ready } : CoreState Nat)).2 rfl).1⟩⟩

/-- C7: with a truthy customInit query parameter the bootstrap issues no
handshake at process start, and the later external trigger produces exactly
the state the immediate handshake would have produced; without that
configuration the bootstrap issues the handshake at process start. Once
triggered, the same state machine applies: uninit moves to initing, a
well-formed init response reaches ready and a malformed one reaches failed. -/
theorem c7_custom_init_defers {H : Type} (u : UrlParams) (st : CoreState H)
    (mtx : List (String × JVal)) :
    (jsTruthyStrOpt (getParam u "customInit") = true →
      appStartup u st = st ∧ startInit (appStartup u st) = startInit st)
    ∧ (autoInitCond u = true → appStartup u st = startInit st)
    ∧ (st.hstate = HandshakeState.uninit →
      (startInit st).hstate = HandshakeState.initing)
    ∧ (dispatchResponse 0 [JVal.nullV, JVal.objV mtx] (startInit (initState : CoreState H))).hstate
      = HandshakeState.ready
    ∧ (dispatchResponse 0 [] (startInit (initState : CoreState H))).hstate
      = HandshakeState.failed := by
  refine ⟨?_, ?_, ?_, rfl, rfl⟩
  · intro hc
    cases hget : getParam u "customInit" with
    | none => rw [hget] at hc; simp [jsTruthyStrOpt] at hc
    | some s =>
      rw [hget] at hc
      have hget' : u.params.lookup "customInit" = some s := hget
      have hhas : hasParam u "customInit" = true := by
        simp [hasParam, hget']
      have hauto : autoInitCond u = false := by
        simp [autoInitCond, hhas, hget, hc]
      constructor
      · simp [appStartup, hauto]
      · simp [appStartup, hauto]
  · intro h
    simp [appStartup, h]
  · intro h
    simp [startInit, h]

/-- Witness for C7 with customInit set to a truthy value, and for the
auto-init path with an empty query string. -/
theorem c7_custom_init_witness :
    (jsTruthyStrOpt (getParam ⟨[("customInit", "true")]⟩ "customInit") = true
      ∧ appStartup ⟨[("customInit", "true")]⟩ (initState : CoreState Nat) = initState
      ∧ startInit (appStartup ⟨[("customInit", "true")]⟩ (initState : CoreState Nat))
        = startInit initState)
    ∧ (autoInitCond ⟨[]⟩ = true
      ∧ appStartup ⟨[]⟩ (initState : CoreState Nat) = startInit initState)
    ∧ ((initState : CoreState Nat).hstate = HandshakeState.uninit
      ∧ (startInit (initState : CoreState Nat)).hstate = HandshakeState.initing) :=
  ⟨⟨by decide,
    ((c7_custom_init_defers ⟨[("customInit", "true")]⟩ (initState : CoreState Nat) []).1 (by decide)).1,
    ((c7_custom_init_defers ⟨[("customInit", "true")]⟩ (initState : CoreState Nat) []).1 (by decide)).2⟩,
   ⟨by decide,
    (c7_custom_init_defers ⟨[]⟩ (initState : CoreState Nat) []).2.1 (by decide)⟩,
   ⟨rfl,
    (c7_custom_init_defers ⟨[]⟩ (initState : CoreState Nat) []).2.2.1 rfl⟩⟩

/-- C10: isSupported is a total boolean: it equals the capability registry's
supports lookup for the search area, is true exactly when the runtime entry
is truthy, and in particular is true when the entry is a non-empty flags
object rather than the literal true. -/
theorem c10_isSupported_total {H : Type} (st : CoreState H) (fl : List (String × JVal)) :
    (search.isSupported st = true ∨ search.isSupported st = false)
    ∧ search.isSupported st = supports st "search"
    ∧ (search.isSupported st = true ↔ jsTruthyOpt (supportsLookup st "search") = true)
    ∧ search.isSupported
        ({ st with matrix := some [("search", JVal.objV (("f", JVal.boolV false) :: fl))] } : CoreState H)
      = true := by
  refine ⟨?_, ?_, ?_, ?_⟩
  · cases h : search.isSupported st
    · exact Or.inr rfl
    · exact Or.inl rfl
  · cases h : jsTruthyOpt (supportsLookup st "search") <;>
      simp [search.isSupported, supports, h]
  · cases h : jsTruthyOpt (supportsLookup st "search") <;>
      simp [search.isSupported, h]
  · simp [search.isSupported, supportsLookup, List.lookup, jsTruthyOpt, jsTruthy]
